import Mathlib

/-!
Verification of the agentic-data-platform repository's orchestration logic.

The repository contains two driver scripts:
  * `examples/cost-optimization/weekly_review.py` — weekly cost review:
    risk categorization, approval policy, execution aggregation, report
    building, notification dispatch.
  * `examples/quickstart/autonomous_pipeline_creation.py` — requirement
    analysis: source/destination kind detection, schedule normalization.

Money amounts (costs, savings) are embedded as rationals.  Python division
raising `ZeroDivisionError` is embedded as an `Option` returning `none`.
String methods (`.lower()`, the `in` substring test, `dict.get`) are
embedded on `List Char` / association lists, faithful to Python semantics
on ASCII identifiers.
-/

namespace ADP

/-- Lower-case a string character-wise, embedding Python `str.lower()`
(ASCII identifiers only appear in this repository). -/
def pyLower (s : String) : String :=
  ⟨s.data.map Char.toLower⟩

/-- Boolean test that the first list is a prefix of the second. -/
def startsWithList (needle hay : List Char) : Bool :=
  match needle, hay with
  | [], _ => true
  | _ :: _, [] => false
  | a :: as, b :: bs => a == b && startsWithList as bs

/-- Boolean test that `needle` occurs as a contiguous sublist of `hay`,
embedding Python's `needle in hay` substring test. -/
def hasSubList (needle hay : List Char) : Bool :=
  match hay with
  | [] => needle.isEmpty
  | _ :: bs => startsWithList needle hay || hasSubList needle bs

/-- Python `key in s` for strings. -/
def pyContains (hay needle : String) : Bool :=
  hasSubList needle.data hay.data

/-- Python `dict.get(key, default)` on an association list that keeps the
dict's insertion order (first binding for a key wins, as in a dict whose
keys are distinct). -/
def dictGet (key : String) : List (String × String) → Option String
  | [] => none
  | (k, v) :: rest => if key == k then some v else dictGet key rest

/-! ## Data model (weekly_review.py) -/

/-- One cost-breakdown entry of the spend analysis
(`analysis["cost_breakdown"]`: service name and monthly cost). -/
structure CostDriver where
  service : String
  cost : ℚ
  deriving Repr, DecidableEq

/-- Result of `_analyze_spend`: total monthly cost, trend, cost drivers,
anomalies. -/
structure SpendAnalysis where
  totalMonthlyCost : ℚ
  trend : String
  topCostDrivers : List CostDriver
  anomalies : List String
  deriving Repr, DecidableEq

/-- One candidate optimization returned by `find_opportunities`. -/
structure Opportunity where
  title : String
  monthlySavings : ℚ
  impact : String
  riskLevel : String
  deriving Repr, DecidableEq

/-- Result of `cost_agent.apply_optimization`: success flag and error
message (read only on failure). -/
structure ApplyResult where
  success : Bool
  error : String
  deriving Repr, DecidableEq

/-- The dict returned by `_categorize_opportunities`, with keys
`low_risk`, `medium_risk`, `high_risk`. -/
structure Categorized where
  lowRisk : List Opportunity
  mediumRisk : List Opportunity
  highRisk : List Opportunity
  deriving Repr, DecidableEq

/-- The dict returned by `_execute_optimizations`, with keys
`applied_count`, `pending_count`, `skipped_count`, `actual_savings`. -/
@[ext]
structure ExecResults where
  appliedCount : ℕ
  pendingCount : ℕ
  skippedCount : ℕ
  actualSavings : ℚ
  deriving Repr, DecidableEq

/-! ## `_categorize_opportunities` (weekly_review.py lines 143-163)

The Python loop appends each opportunity to exactly one of three lists
according to its `risk_level` string: `"low"` to `low_risk`, `"medium"`
to `medium_risk`, anything else to `high_risk`. -/

/-- Shallow embedding of `_categorize_opportunities`. -/
def categorizeOpportunities : List Opportunity → Categorized
  | [] => ⟨[], [], []⟩
  | opp :: rest =>
    let c := categorizeOpportunities rest
    if opp.riskLevel == "low" then
      ⟨opp :: c.lowRisk, c.mediumRisk, c.highRisk⟩
    else if opp.riskLevel == "medium" then
      ⟨c.lowRisk, opp :: c.mediumRisk, c.highRisk⟩
    else
      ⟨c.lowRisk, c.mediumRisk, opp :: c.highRisk⟩

theorem categorize_low_eq (opps : List Opportunity) :
    (categorizeOpportunities opps).lowRisk
      = opps.filter (fun o => o.riskLevel == "low") := by
  induction opps with
  | nil => rfl
  | cons o rest ih =>
    simp only [categorizeOpportunities, List.filter]
    cases h1 : (o.riskLevel == "low")
    · cases h2 : (o.riskLevel == "medium") <;> simp [h1, h2, ih]
    · simp [h1, ih]

theorem categorize_medium_eq (opps : List Opportunity) :
    (categorizeOpportunities opps).mediumRisk
      = opps.filter (fun o => o.riskLevel == "medium") := by
  induction opps with
  | nil => rfl
  | cons o rest ih =>
    simp only [categorizeOpportunities, List.filter]
    cases h1 : (o.riskLevel == "low")
    · cases h2 : (o.riskLevel == "medium") <;> simp [h1, h2, ih]
    · have h2 : (o.riskLevel == "medium") = false := by
        simp only [beq_iff_eq] at h1 ⊢
        simp_all
      simp [h1, h2, ih]

theorem categorize_high_eq (opps : List Opportunity) :
    (categorizeOpportunities opps).highRisk
      = opps.filter (fun o => !(o.riskLevel == "low") && !(o.riskLevel == "medium")) := by
  induction opps with
  | nil => rfl
  | cons o rest ih =>
    simp only [categorizeOpportunities, List.filter]
    cases h1 : (o.riskLevel == "low")
    · cases h2 : (o.riskLevel == "medium") <;> simp [h1, h2, ih]
    · simp [h1, ih]

theorem categorize_length_sum (opps : List Opportunity) :
    (categorizeOpportunities opps).lowRisk.length
      + (categorizeOpportunities opps).mediumRisk.length
      + (categorizeOpportunities opps).highRisk.length = opps.length := by
  induction opps with
  | nil => rfl
  | cons o rest ih =>
    simp only [categorizeOpportunities]
    cases h1 : (o.riskLevel == "low")
    · cases h2 : (o.riskLevel == "medium") <;> simp [h1, h2] <;> omega
    · simp [h1]; omega

theorem categorize_count_sum (opps : List Opportunity) (o : Opportunity) :
    (categorizeOpportunities opps).lowRisk.count o
      + (categorizeOpportunities opps).mediumRisk.count o
      + (categorizeOpportunities opps).highRisk.count o = opps.count o := by
  induction opps with
  | nil => rfl
  | cons p rest ih =>
    simp only [categorizeOpportunities]
    cases h1 : (p.riskLevel == "low")
    · cases h2 : (p.riskLevel == "medium")
      · by_cases he : o = p
        · subst he; simp [h1, h2, List.count_cons]; omega
        · simp [h1, h2, he, List.count_cons]; omega
      · by_cases he : o = p
        · subst he; simp [h1, h2, List.count_cons]; omega
        · simp [h1, h2, he, List.count_cons]; omega
    · by_cases he : o = p
      · subst he; simp [h1, List.count_cons]; omega
      · simp [h1, he, List.count_cons]; omega

/-- C5: `_categorize_opportunities` is a stable partition by risk level:
the three buckets are exactly the order-preserving filters of the input by
riskLevel `"low"`, `"medium"`, and everything else, the bucket lengths sum
to the input length, and every opportunity occurs in exactly one bucket
(its multiplicity splits across the buckets). -/
theorem categorize_partition (opps : List Opportunity) :
    (categorizeOpportunities opps).lowRisk
        = opps.filter (fun o => o.riskLevel == "low")
    ∧ (categorizeOpportunities opps).mediumRisk
        = opps.filter (fun o => o.riskLevel == "medium")
    ∧ (categorizeOpportunities opps).highRisk
        = opps.filter (fun o => !(o.riskLevel == "low") && !(o.riskLevel == "medium"))
    ∧ (categorizeOpportunities opps).lowRisk.length
        + (categorizeOpportunities opps).mediumRisk.length
        + (categorizeOpportunities opps).highRisk.length = opps.length
    ∧ ∀ o : Opportunity,
        ((categorizeOpportunities opps).lowRisk.count o
          + (categorizeOpportunities opps).mediumRisk.count o
          + (categorizeOpportunities opps).highRisk.count o = opps.count o)
        ∧ (o ∈ opps →
            (o ∈ (categorizeOpportunities opps).lowRisk
              ∨ o ∈ (categorizeOpportunities opps).mediumRisk
              ∨ o ∈ (categorizeOpportunities opps).highRisk)) := by
  refine ⟨categorize_low_eq opps, categorize_medium_eq opps,
    categorize_high_eq opps, categorize_length_sum opps, fun o => ⟨?_, ?_⟩⟩
  · exact categorize_count_sum opps o
  · intro hmem
    rw [categorize_low_eq, categorize_medium_eq, categorize_high_eq]
    by_cases h1 : o.riskLevel = "low"
    · exact Or.inl (List.mem_filter.mpr ⟨hmem, by simp [h1]⟩)
    · by_cases h2 : o.riskLevel = "medium"
      · exact Or.inr (Or.inl (List.mem_filter.mpr ⟨hmem, by simp [h2]⟩))
      · exact Or.inr (Or.inr (List.mem_filter.mpr ⟨hmem, by simp [h1, h2]⟩))

/-- C5 witness: on `[low 100, medium 50, unknown 10]` the buckets are
`low=[100]`, `medium=[50]`, `high=[10]`, and the first item is found in
one of the buckets. -/
theorem categorize_partition_witness :
    (categorizeOpportunities
        [⟨"Shut down idle VMs", 100, "low", "low"⟩,
          ⟨"Resize database", 50, "medium", "medium"⟩,
          ⟨"Delete disks", 10, "high", "unknown"⟩]).lowRisk
      = [⟨"Shut down idle VMs", 100, "low", "low"⟩]
    ∧ (categorizeOpportunities
        [⟨"Shut down idle VMs", 100, "low", "low"⟩,
          ⟨"Resize database", 50, "medium", "medium"⟩,
          ⟨"Delete disks", 10, "high", "unknown"⟩]).mediumRisk
      = [⟨"Resize database", 50, "medium", "medium"⟩]
    ∧ (categorizeOpportunities
        [⟨"Shut down idle VMs", 100, "low", "low"⟩,
          ⟨"Resize database", 50, "medium", "medium"⟩,
          ⟨"Delete disks", 10, "high", "unknown"⟩]).highRisk
      = [⟨"Delete disks", 10, "high", "unknown"⟩]
    ∧ (⟨"Shut down idle VMs", 100, "low", "low"⟩
          ∈ (categorizeOpportunities
              [⟨"Shut down idle VMs", 100, "low", "low"⟩,
                ⟨"Resize database", 50, "medium", "medium"⟩,
                ⟨"Delete disks", 10, "high", "unknown"⟩]).lowRisk
        ∨ (⟨"Shut down idle VMs", 100, "low", "low"⟩ : Opportunity)
          ∈ (categorizeOpportunities
              [⟨"Shut down idle VMs", 100, "low", "low"⟩,
                ⟨"Resize database", 50, "medium", "medium"⟩,
                ⟨"Delete disks", 10, "high", "unknown"⟩]).mediumRisk
        ∨ (⟨"Shut down idle VMs", 100, "low", "low"⟩ : Opportunity)
          ∈ (categorizeOpportunities
              [⟨"Shut down idle VMs", 100, "low", "low"⟩,
                ⟨"Resize database", 50, "medium", "medium"⟩,
                ⟨"Delete disks", 10, "high", "unknown"⟩]).highRisk) :=
  ⟨by decide, by decide, by decide,
    ((categorize_partition
        [⟨"Shut down idle VMs", 100, "low", "low"⟩,
          ⟨"Resize database", 50, "medium", "medium"⟩,
          ⟨"Delete disks", 10, "high", "unknown"⟩]).2.2.2.2
      ⟨"Shut down idle VMs", 100, "low", "low"⟩).2 (by simp)⟩

/-! ## `_execute_optimizations` (weekly_review.py lines 165-209)

The Python function walks the low-risk bucket first: when
`environment != "prod" and auto_approve_nonprod` it calls
`apply_optimization` and increments `applied_count` (adding the
opportunity's savings) on success or `skipped_count` on failure;
otherwise it increments `pending_count`.  Every medium-risk and
high-risk opportunity increments `pending_count`.  The sequence of
apply-optimization results is embedded as a function
`applyOpt : Opportunity → ApplyResult`. -/

/-- Loop over the low-risk bucket, accumulating counters
(weekly_review.py lines 178-190). -/
def execLowLoop (env : String) (auto : Bool)
    (applyOpt : Opportunity → ApplyResult) :
    List Opportunity → ExecResults → ExecResults
  | [], acc => acc
  | opp :: rest, acc =>
    let acc1 :=
      if (env != "prod") && auto then
        let result := applyOpt opp
        if result.success then
          { acc with appliedCount := acc.appliedCount + 1,
                     actualSavings := acc.actualSavings + opp.monthlySavings }
        else
          { acc with skippedCount := acc.skippedCount + 1 }
      else
        { acc with pendingCount := acc.pendingCount + 1 }
    execLowLoop env auto applyOpt rest acc1

/-- Loop over a medium- or high-risk bucket: every item becomes pending
(weekly_review.py lines 194-202). -/
def execPendingLoop : List Opportunity → ExecResults → ExecResults
  | [], acc => acc
  | _ :: rest, acc =>
    execPendingLoop rest { acc with pendingCount := acc.pendingCount + 1 }

/-- Shallow embedding of `_execute_optimizations`: counters start at zero,
then the three bucket loops run in order. -/
def executeOptimizations (cat : Categorized) (env : String) (auto : Bool)
    (applyOpt : Opportunity → ApplyResult) : ExecResults :=
  execPendingLoop cat.highRisk
    (execPendingLoop cat.mediumRisk
      (execLowLoop env auto applyOpt cat.lowRisk ⟨0, 0, 0, 0⟩))

/-- The low-risk opportunities whose apply call is made and succeeds —
exactly those counted as applied. -/
def appliedOpps (cat : Categorized) (env : String) (auto : Bool)
    (applyOpt : Opportunity → ApplyResult) : List Opportunity :=
  if (env != "prod") && auto then
    cat.lowRisk.filter (fun o => (applyOpt o).success)
  else
    []

theorem execPendingLoop_eq (l : List Opportunity) (acc : ExecResults) :
    execPendingLoop l acc
      = { acc with pendingCount := acc.pendingCount + l.length } := by
  induction l generalizing acc with
  | nil => rfl
  | cons o rest ih =>
    simp only [execPendingLoop, ih, List.length_cons]
    congr 1
    omega

theorem execLowLoop_eq_false (env : String) (auto : Bool)
    (applyOpt : Opportunity → ApplyResult) (l : List Opportunity)
    (acc : ExecResults) (hc : ((env != "prod") && auto) = false) :
    execLowLoop env auto applyOpt l acc
      = { acc with pendingCount := acc.pendingCount + l.length } := by
  induction l generalizing acc with
  | nil => rfl
  | cons o rest ih =>
    simp only [execLowLoop, hc, Bool.false_eq_true, if_false, ih,
      List.length_cons]
    ext <;> simp <;> omega

theorem execLowLoop_eq_true (env : String) (auto : Bool)
    (applyOpt : Opportunity → ApplyResult) (l : List Opportunity)
    (acc : ExecResults) (hc : ((env != "prod") && auto) = true) :
    execLowLoop env auto applyOpt l acc
      = { appliedCount := acc.appliedCount
            + (l.filter (fun o => (applyOpt o).success)).length,
          pendingCount := acc.pendingCount,
          skippedCount := acc.skippedCount
            + (l.filter (fun o => !(applyOpt o).success)).length,
          actualSavings := acc.actualSavings
            + ((l.filter (fun o => (applyOpt o).success)).map
                (·.monthlySavings)).sum } := by
  induction l generalizing acc with
  | nil => simp [execLowLoop]
  | cons o rest ih =>
    cases hs : (applyOpt o).success with
    | false =>
      simp only [execLowLoop, hc, if_true, hs, Bool.false_eq_true, if_false,
        ih, List.filter_cons, Bool.not_false]
      ext <;> simp [hs] <;> omega
    | true =>
      simp only [execLowLoop, hc, if_true, hs, ih, List.filter_cons,
        Bool.not_true]
      ext <;> simp [hs] <;> first | omega | ring

theorem executeOptimizations_eq (cat : Categorized) (env : String)
    (auto : Bool) (applyOpt : Opportunity → ApplyResult) :
    executeOptimizations cat env auto applyOpt
      = { appliedCount :=
            (if (env != "prod") && auto then
              (cat.lowRisk.filter (fun o => (applyOpt o).success)).length
            else 0),
          pendingCount :=
            (if (env != "prod") && auto then 0 else cat.lowRisk.length)
              + cat.mediumRisk.length + cat.highRisk.length,
          skippedCount :=
            (if (env != "prod") && auto then
              (cat.lowRisk.filter (fun o => !(applyOpt o).success)).length
            else 0),
          actualSavings :=
            (if (env != "prod") && auto then
              ((cat.lowRisk.filter (fun o => (applyOpt o).success)).map
                  (·.monthlySavings)).sum
            else 0) } := by
  cases hc : ((env != "prod") && auto) with
  | false =>
    simp only [executeOptimizations, execLowLoop_eq_false _ _ _ _ _ hc,
      execPendingLoop_eq, hc, Bool.false_eq_true, if_false]
    ext <;> simp <;> omega
  | true =>
    simp only [executeOptimizations, execLowLoop_eq_true _ _ _ _ _ hc,
      execPendingLoop_eq, hc, if_true]
    ext <;> simp <;> first | omega | ring

theorem length_filter_bool_split {α : Type} (p : α → Bool) (l : List α) :
    (l.filter p).length + (l.filter (fun a => !(p a))).length = l.length := by
  induction l with
  | nil => rfl
  | cons a t ih => cases h : p a <;> simp [h] <;> omega

/-- C4: the approval decision of `_execute_optimizations`: low-risk
opportunities are auto-applied (counted applied-or-skipped) exactly when
`environment != "prod"` and `auto_approve_nonprod` holds, and are all
pending otherwise; medium- and high-risk opportunities are always pending,
independent of environment and flag. -/
theorem approval_policy (cat : Categorized) (env : String) (auto : Bool)
    (applyOpt : Opportunity → ApplyResult) :
    (executeOptimizations cat env auto applyOpt).pendingCount
      = (if (env != "prod") && auto then 0 else cat.lowRisk.length)
        + cat.mediumRisk.length + cat.highRisk.length
    ∧ (executeOptimizations cat env auto applyOpt).appliedCount
        + (executeOptimizations cat env auto applyOpt).skippedCount
      = (if (env != "prod") && auto then cat.lowRisk.length else 0)
    ∧ executeOptimizations ⟨[], cat.mediumRisk, cat.highRisk⟩ env auto applyOpt
      = ⟨0, cat.mediumRisk.length + cat.highRisk.length, 0, 0⟩ := by
  rw [executeOptimizations_eq, executeOptimizations_eq]
  refine ⟨rfl, ?_, ?_⟩
  · cases hc : ((env != "prod") && auto)
    · simp
    · simp only [if_true]
      exact length_filter_bool_split _ _
  · cases hc : ((env != "prod") && auto) <;> ext <;> simp

/-- C6: conservation of opportunities in `_execute_optimizations`: for
every categorization, environment, flag, and sequence of
apply-optimization results, `applied_count + pending_count +
skipped_count` equals the total number of opportunities across the three
buckets. -/
theorem outcome_counts_conserved (cat : Categorized) (env : String)
    (auto : Bool) (applyOpt : Opportunity → ApplyResult) :
    (executeOptimizations cat env auto applyOpt).appliedCount
      + (executeOptimizations cat env auto applyOpt).pendingCount
      + (executeOptimizations cat env auto applyOpt).skippedCount
      = cat.lowRisk.length + cat.mediumRisk.length + cat.highRisk.length := by
  rw [executeOptimizations_eq]
  cases hc : ((env != "prod") && auto)
  · simp
  · simp only [if_true]
    have := length_filter_bool_split (fun o => (applyOpt o).success) cat.lowRisk
    omega

/-- C7: a failing apply call on one low-risk opportunity converts only
that item to a skip: compared with the same run without that item,
`skipped_count` grows by exactly one and the applied count, pending
count, and accumulated savings are unchanged — processing of every other
opportunity is unaffected and the run does not abort. -/
theorem apply_failure_isolated (pre post med high : List Opportunity)
    (o : Opportunity) (env : String) (auto : Bool)
    (applyOpt : Opportunity → ApplyResult)
    (hc : ((env != "prod") && auto) = true)
    (hf : (applyOpt o).success = false) :
    (executeOptimizations ⟨pre ++ o :: post, med, high⟩ env auto applyOpt).skippedCount
      = (executeOptimizations ⟨pre ++ post, med, high⟩ env auto applyOpt).skippedCount + 1
    ∧ (executeOptimizations ⟨pre ++ o :: post, med, high⟩ env auto applyOpt).appliedCount
      = (executeOptimizations ⟨pre ++ post, med, high⟩ env auto applyOpt).appliedCount
    ∧ (executeOptimizations ⟨pre ++ o :: post, med, high⟩ env auto applyOpt).pendingCount
      = (executeOptimizations ⟨pre ++ post, med, high⟩ env auto applyOpt).pendingCount
    ∧ (executeOptimizations ⟨pre ++ o :: post, med, high⟩ env auto applyOpt).actualSavings
      = (executeOptimizations ⟨pre ++ post, med, high⟩ env auto applyOpt).actualSavings := by
  rw [executeOptimizations_eq, executeOptimizations_eq]
  simp only [hc, if_true]
  refine ⟨?_, ?_, ?_, ?_⟩
  · simp [List.filter_append, List.filter_cons, hf]
    omega
  · simp [List.filter_append, List.filter_cons, hf]
  · trivial
  · simp [List.filter_append, List.filter_cons, hf]

/-- C7 witness: with one failing low-risk opportunity in a dev
environment with auto-approval on, the skip counter grows by one and all
other aggregates match the run without it. -/
theorem apply_failure_isolated_witness :
    (executeOptimizations ⟨[] ++ Opportunity.mk "Delete unused disks" 5 "low" "low" :: [], [], []⟩
        "dev" true (fun _ => ⟨false, "ResourceLocked"⟩)).skippedCount
      = (executeOptimizations ⟨[] ++ [], [], []⟩
          "dev" true (fun _ => ⟨false, "ResourceLocked"⟩)).skippedCount + 1
    ∧ (executeOptimizations ⟨[] ++ Opportunity.mk "Delete unused disks" 5 "low" "low" :: [], [], []⟩
        "dev" true (fun _ => ⟨false, "ResourceLocked"⟩)).appliedCount
      = (executeOptimizations ⟨[] ++ [], [], []⟩
          "dev" true (fun _ => ⟨false, "ResourceLocked"⟩)).appliedCount
    ∧ (executeOptimizations ⟨[] ++ Opportunity.mk "Delete unused disks" 5 "low" "low" :: [], [], []⟩
        "dev" true (fun _ => ⟨false, "ResourceLocked"⟩)).pendingCount
      = (executeOptimizations ⟨[] ++ [], [], []⟩
          "dev" true (fun _ => ⟨false, "ResourceLocked"⟩)).pendingCount
    ∧ (executeOptimizations ⟨[] ++ Opportunity.mk "Delete unused disks" 5 "low" "low" :: [], [], []⟩
        "dev" true (fun _ => ⟨false, "ResourceLocked"⟩)).actualSavings
      = (executeOptimizations ⟨[] ++ [], [], []⟩
          "dev" true (fun _ => ⟨false, "ResourceLocked"⟩)).actualSavings :=
  apply_failure_isolated [] [] [] [] (Opportunity.mk "Delete unused disks" 5 "low" "low")
    "dev" true (fun _ => ⟨false, "ResourceLocked"⟩) (by decide) rfl

/-- C8: `actual_savings` equals the sum of `monthly_savings` over exactly
the opportunities counted as applied (the low-risk ones whose apply call
was made and reported success); pending and skipped items contribute
nothing. -/
theorem actual_savings_eq_applied (cat : Categorized) (env : String)
    (auto : Bool) (applyOpt : Opportunity → ApplyResult) :
    (executeOptimizations cat env auto applyOpt).actualSavings
      = ((appliedOpps cat env auto applyOpt).map (·.monthlySavings)).sum
    ∧ (executeOptimizations cat env auto applyOpt).appliedCount
      = (appliedOpps cat env auto applyOpt).length := by
  rw [executeOptimizations_eq]
  unfold appliedOpps
  cases hc : ((env != "prod") && auto) <;> simp

/-! ## `_generate_report` (weekly_review.py lines 211-251)

The report dict's time-derived fields (`date`, `report_url`) are omitted
from the embedding; every other field is kept.  Line 222 divides the total
potential savings by `spend_analysis['total_monthly_cost']` with no guard:
on a zero baseline Python raises `ZeroDivisionError`, embedded here as the
function returning `none`. -/

/-- The `spend_summary` sub-dict of the report. -/
structure SpendSummary where
  totalMonthlyCost : ℚ
  trend : String
  topCostDrivers : List CostDriver
  deriving Repr, DecidableEq

/-- The `optimization_summary` sub-dict of the report. -/
structure OptimizationSummary where
  opportunitiesFound : ℕ
  totalPotentialSavings : ℚ
  savingsPercentage : ℚ
  lowRiskCount : ℕ
  mediumRiskCount : ℕ
  highRiskCount : ℕ
  deriving Repr, DecidableEq

/-- The report dict built by `_generate_report` (time-derived `date` and
`report_url` fields omitted). -/
structure Report where
  environment : String
  dryRun : Bool
  spendSummary : SpendSummary
  optimizationSummary : OptimizationSummary
  actionsTaken : ExecResults
  opportunities : List Opportunity
  deriving Repr, DecidableEq

/-- Total potential savings: `sum(opp['monthly_savings'] for opp in
opportunities)` (weekly_review.py line 221). -/
def totalSavingsOf (opps : List Opportunity) : ℚ :=
  (opps.map (·.monthlySavings)).sum

/-- Shallow embedding of `_generate_report`.  Returns `none` when the
division on line 222 raises `ZeroDivisionError`. -/
def generateReport (env : String) (sa : SpendAnalysis)
    (opps : List Opportunity) (cat : Categorized) (results : ExecResults)
    (dryRun : Bool) : Option Report :=
  if sa.totalMonthlyCost = 0 then none
  else some
    { environment := env
      dryRun := dryRun
      spendSummary :=
        ⟨sa.totalMonthlyCost, sa.trend, sa.topCostDrivers.take 5⟩
      optimizationSummary :=
        ⟨opps.length, totalSavingsOf opps,
          totalSavingsOf opps / sa.totalMonthlyCost * 100,
          cat.lowRisk.length, cat.mediumRisk.length, cat.highRisk.length⟩
      actionsTaken := results
      opportunities := opps }

/-! ## `_send_notifications` (weekly_review.py lines 253-266)

The Slack message is always sent; the email is sent only when the
report's `total_potential_savings` strictly exceeds 1000.  Message
bodies (the format helpers) carry no decision logic and are omitted. -/

/-- A notification channel used by `_send_notifications`. -/
inductive Notification where
  | slack
  | email
  deriving Repr, DecidableEq

/-- Shallow embedding of the dispatch decisions of `_send_notifications`:
the list of channels notified for a given report, in order. -/
def sendNotifications (r : Report) : List Notification :=
  Notification.slack ::
    (if r.optimizationSummary.totalPotentialSavings > 1000 then
      [Notification.email]
    else [])

/-- C1 counterexample: with a zero-cost baseline, `_generate_report`
raises `ZeroDivisionError` (embedded as `none`) instead of producing a
report whose savings percentage is `0`: there is no guard on line 222. -/
theorem savings_percentage_zero_baseline_raises :
    generateReport "prod"
        ⟨0, "stable", [⟨"Azure SQL", 0⟩], []⟩
        [⟨"Rightsize VM", 100, "low", "low"⟩]
        ⟨[⟨"Rightsize VM", 100, "low", "low"⟩], [], []⟩
        ⟨0, 1, 0, 0⟩ false
      = none
    ∧ (generateReport "prod"
        ⟨0, "stable", [⟨"Azure SQL", 0⟩], []⟩
        [⟨"Rightsize VM", 100, "low", "low"⟩]
        ⟨[⟨"Rightsize VM", 100, "low", "low"⟩], [], []⟩
        ⟨0, 1, 0, 0⟩ false).map
          (fun r => r.optimizationSummary.savingsPercentage)
      ≠ some 0 := by
  constructor
  · rfl
  · intro h
    simp [generateReport] at h

/-- C1 (amended): `_generate_report` raises `ZeroDivisionError` exactly
when the total monthly cost is zero (no zero-baseline guard exists); for
every non-zero baseline it produces a report whose savings percentage is
`(total potential savings / total monthly cost) * 100`. -/
theorem savings_percentage_characterization (env : String)
    (sa : SpendAnalysis) (opps : List Opportunity) (cat : Categorized)
    (results : ExecResults) (dryRun : Bool) :
    (generateReport env sa opps cat results dryRun = none
      ↔ sa.totalMonthlyCost = 0)
    ∧ (∀ r : Report,
        generateReport env sa opps cat results dryRun = some r →
          r.optimizationSummary.savingsPercentage
            = totalSavingsOf opps / sa.totalMonthlyCost * 100) := by
  constructor
  · constructor
    · intro h
      by_contra hz
      simp [generateReport, hz] at h
    · intro h
      simp [generateReport, h]
  · intro r hr
    by_cases hz : sa.totalMonthlyCost = 0
    · simp [generateReport, hz] at hr
    · simp [generateReport, hz] at hr
      rw [← hr]

/-- C1 witness: on a concrete non-zero baseline of 200 with total savings
50, the report exists and its savings percentage is 25. -/
theorem savings_percentage_witness :
    (generateReport "dev" ⟨200, "stable", [], []⟩
        [⟨"Rightsize VM", 50, "low", "low"⟩] ⟨[], [], []⟩
        ⟨0, 0, 0, 0⟩ false).map
      (fun r => r.optimizationSummary.savingsPercentage) = some 25 := by
  have h := (savings_percentage_characterization "dev"
    ⟨200, "stable", [], []⟩ [⟨"Rightsize VM", 50, "low", "low"⟩]
    ⟨[], [], []⟩ ⟨0, 0, 0, 0⟩ false).2
  cases hG : generateReport "dev" ⟨200, "stable", [], []⟩
      [⟨"Rightsize VM", 50, "low", "low"⟩] ⟨[], [], []⟩
      ⟨0, 0, 0, 0⟩ false with
  | none => exact absurd hG (by simp [generateReport])
  | some r =>
    have hp := h r hG
    have hv : r.optimizationSummary.savingsPercentage = 25 := by
      rw [hp]
      norm_num [totalSavingsOf]
    show some r.optimizationSummary.savingsPercentage = some 25
    rw [hv]

/-- C3 counterexample: with six cost-breakdown entries and a non-zero
baseline, the Report's only cost-driver field (`spend_summary.top_cost_drivers`)
holds just the first five entries — the full cost-driver list is not
retained anywhere in the Report. -/
theorem report_truncates_cost_drivers :
    (generateReport "dev"
        ⟨100, "stable",
          [⟨"vm", 10⟩, ⟨"sql", 20⟩, ⟨"storage", 30⟩,
            ⟨"network", 40⟩, ⟨"aks", 50⟩, ⟨"adf", 60⟩], []⟩
        [] ⟨[], [], []⟩ ⟨0, 0, 0, 0⟩ false).map
      (fun r => r.spendSummary.topCostDrivers)
      = some [⟨"vm", 10⟩, ⟨"sql", 20⟩, ⟨"storage", 30⟩,
          ⟨"network", 40⟩, ⟨"aks", 50⟩]
    ∧ (generateReport "dev"
        ⟨100, "stable",
          [⟨"vm", 10⟩, ⟨"sql", 20⟩, ⟨"storage", 30⟩,
            ⟨"network", 40⟩, ⟨"aks", 50⟩, ⟨"adf", 60⟩], []⟩
        [] ⟨[], [], []⟩ ⟨0, 0, 0, 0⟩ false).map
      (fun r => r.spendSummary.topCostDrivers)
      ≠ some [⟨"vm", 10⟩, ⟨"sql", 20⟩, ⟨"storage", 30⟩,
          ⟨"network", 40⟩, ⟨"aks", 50⟩, ⟨"adf", 60⟩] := by
  refine ⟨rfl, ?_⟩
  intro h
  rw [show (generateReport "dev"
      ⟨100, "stable",
        [⟨"vm", 10⟩, ⟨"sql", 20⟩, ⟨"storage", 30⟩,
          ⟨"network", 40⟩, ⟨"aks", 50⟩, ⟨"adf", 60⟩], []⟩
      [] ⟨[], [], []⟩ ⟨0, 0, 0, 0⟩ false).map
      (fun r => r.spendSummary.topCostDrivers)
      = some [⟨"vm", 10⟩, ⟨"sql", 20⟩, ⟨"storage", 30⟩,
          ⟨"network", 40⟩, ⟨"aks", 50⟩] from rfl] at h
  simp at h

/-- C3 (amended): in every report `_generate_report` builds, the stored
cost-driver list is the input truncated to its first five entries (the
truncation is in the Report itself, not only in display); what the Report
retains in full is the opportunity list. -/
theorem report_top5_and_full_opportunities (env : String)
    (sa : SpendAnalysis) (opps : List Opportunity) (cat : Categorized)
    (results : ExecResults) (dryRun : Bool) :
    ∀ r : Report, generateReport env sa opps cat results dryRun = some r →
      r.spendSummary.topCostDrivers = sa.topCostDrivers.take 5
      ∧ r.opportunities = opps := by
  intro r hr
  by_cases hz : sa.totalMonthlyCost = 0
  · simp [generateReport, hz] at hr
  · simp [generateReport, hz] at hr
    rw [← hr]
    exact ⟨rfl, rfl⟩

/-- C3 witness: a concrete six-driver report retains exactly the first
five drivers and the full opportunity list. -/
theorem report_top5_witness :
    (generateReport "dev"
        ⟨100, "stable",
          [⟨"vm", 10⟩, ⟨"sql", 20⟩, ⟨"storage", 30⟩,
            ⟨"network", 40⟩, ⟨"aks", 50⟩, ⟨"adf", 60⟩], []⟩
        [⟨"Rightsize VM", 50, "low", "low"⟩] ⟨[], [], []⟩
        ⟨0, 0, 0, 0⟩ false).map
      (fun r => (r.spendSummary.topCostDrivers, r.opportunities))
      = some
          ([⟨"vm", 10⟩, ⟨"sql", 20⟩, ⟨"storage", 30⟩,
              ⟨"network", 40⟩, ⟨"aks", 50⟩],
            [⟨"Rightsize VM", 50, "low", "low"⟩]) := by
  cases hG : generateReport "dev"
      ⟨100, "stable",
        [⟨"vm", 10⟩, ⟨"sql", 20⟩, ⟨"storage", 30⟩,
          ⟨"network", 40⟩, ⟨"aks", 50⟩, ⟨"adf", 60⟩], []⟩
      [⟨"Rightsize VM", 50, "low", "low"⟩] ⟨[], [], []⟩
      ⟨0, 0, 0, 0⟩ false with
  | none => exact absurd hG (by simp [generateReport])
  | some r =>
    have h := report_top5_and_full_opportunities "dev"
      ⟨100, "stable",
        [⟨"vm", 10⟩, ⟨"sql", 20⟩, ⟨"storage", 30⟩,
          ⟨"network", 40⟩, ⟨"aks", 50⟩, ⟨"adf", 60⟩], []⟩
      [⟨"Rightsize VM", 50, "low", "low"⟩] ⟨[], [], []⟩
      ⟨0, 0, 0, 0⟩ false r hG
    show some (r.spendSummary.topCostDrivers, r.opportunities) = _
    rw [h.1, h.2]
    rfl

/-- C10: for every report produced by `_generate_report`,
`_send_notifications` always sends the Slack notification, and sends the
email notification exactly when the report's total potential monthly
savings strictly exceed 1000. -/
theorem notifications_policy (env : String) (sa : SpendAnalysis)
    (opps : List Opportunity) (cat : Categorized) (results : ExecResults)
    (dryRun : Bool) :
    ∀ r : Report, generateReport env sa opps cat results dryRun = some r →
      Notification.slack ∈ sendNotifications r
      ∧ (Notification.email ∈ sendNotifications r ↔ totalSavingsOf opps > 1000) := by
  intro r hr
  by_cases hz : sa.totalMonthlyCost = 0
  · simp [generateReport, hz] at hr
  · simp [generateReport, hz] at hr
    rw [← hr]
    constructor
    · simp [sendNotifications]
    · by_cases hgt : totalSavingsOf opps > 1000 <;>
        simp [sendNotifications, hgt]

/-- C10 witness: a concrete report with total potential savings 2000 gets
both the Slack and the email notification. -/
theorem notifications_policy_witness :
    (generateReport "dev" ⟨100, "stable", [], []⟩
        [⟨"Reserved instances", 2000, "high", "medium"⟩]
        ⟨[], [], []⟩ ⟨0, 0, 0, 0⟩ false).map
      (fun r => (decide (Notification.slack ∈ sendNotifications r),
        decide (Notification.email ∈ sendNotifications r)))
      = some (true, true) := by
  cases hG : generateReport "dev" ⟨100, "stable", [], []⟩
      [⟨"Reserved instances", 2000, "high", "medium"⟩]
      ⟨[], [], []⟩ ⟨0, 0, 0, 0⟩ false with
  | none => exact absurd hG (by simp [generateReport])
  | some r =>
    have h := notifications_policy "dev" ⟨100, "stable", [], []⟩
      [⟨"Reserved instances", 2000, "high", "medium"⟩]
      ⟨[], [], []⟩ ⟨0, 0, 0, 0⟩ false r hG
    have h2 : Notification.email ∈ sendNotifications r :=
      h.2.mpr (by norm_num [totalSavingsOf])
    show some (decide (Notification.slack ∈ sendNotifications r),
        decide (Notification.email ∈ sendNotifications r)) = some (true, true)
    rw [decide_eq_true h.1, decide_eq_true h2]

/-! ## Kind detection (autonomous_pipeline_creation.py lines 269-298)

`_detect_source_type` and `_detect_destination_type` iterate their
mapping dicts in insertion order and return the value of the first key
that occurs as a substring of the lower-cased identifier; the
fall-backs are `"unknown"` and `"data_lake"`. -/

/-- The `source_mapping` dict of `_detect_source_type`, in insertion
order. -/
def sourceMapping : List (String × String) :=
  [("sqlserver", "sqlserver"), ("postgres", "postgresql"),
    ("mysql", "mysql"), ("oracle", "oracle"), ("cosmosdb", "cosmosdb"),
    ("blob", "blob_storage"), ("adls", "data_lake"), ("api", "rest_api")]

/-- The `dest_mapping` dict of `_detect_destination_type`, in insertion
order. -/
def destMapping : List (String × String) :=
  [("datalake", "data_lake"), ("synapse", "synapse"),
    ("databricks", "databricks"), ("cosmos", "cosmosdb"),
    ("sql", "sql_database")]

/-- The shared loop `for key, value in mapping.items(): if key in
p.lower(): return value` followed by the default. -/
def detectLoop (dflt p : String) : List (String × String) → String
  | [] => dflt
  | kv :: rest =>
    if pyContains (pyLower p) kv.1 then kv.2 else detectLoop dflt p rest

/-- Shallow embedding of `_detect_source_type`. -/
def detectSourceType (p : String) : String :=
  detectLoop "unknown" p sourceMapping

/-- Shallow embedding of `_detect_destination_type`. -/
def detectDestinationType (p : String) : String :=
  detectLoop "data_lake" p destMapping

/-- C2 counterexample: in the identifier prefix `cosmosdb-mysql` both
known tokens `mysql` and `cosmosdb` occur, `cosmosdb` is the longer one,
yet detection returns `mysql` — the lookup is first-match in dict
insertion order, not longest-match-wins. -/
theorem detect_not_longest_match :
    pyContains (pyLower "cosmosdb-mysql") "mysql" = true
    ∧ pyContains (pyLower "cosmosdb-mysql") "cosmosdb" = true
    ∧ "mysql".length < "cosmosdb".length
    ∧ detectSourceType "cosmosdb-mysql" = "mysql"
    ∧ detectSourceType "cosmosdb-mysql" ≠ "cosmosdb" := by
  refine ⟨by decide, by decide, by decide, by decide, by decide⟩

theorem detectLoop_eq_findFirst (dflt p : String)
    (m : List (String × String)) :
    detectLoop dflt p m
      = ((m.find? (fun kv => pyContains (pyLower p) kv.1)).map
          Prod.snd).getD dflt := by
  induction m with
  | nil => rfl
  | cons kv rest ih =>
    cases h : pyContains (pyLower p) kv.1 <;>
      simp [detectLoop, List.find?, h, ih]

/-- C2 (amended): kind detection lower-cases the identifier prefix and
returns the kind of the first token in the mapping's fixed insertion
order (`sqlserver, postgres, mysql, oracle, cosmosdb, blob, adls, api`
for sources; `datalake, synapse, databricks, cosmos, sql` for
destinations) that occurs as a substring — first-match-wins, not
longest-match-wins; if no token occurs, the source kind is `unknown` and
the destination kind is `data_lake`. -/
theorem detect_first_match (p : String) :
    detectSourceType p
      = ((sourceMapping.find? (fun kv => pyContains (pyLower p) kv.1)).map
          Prod.snd).getD "unknown"
    ∧ detectDestinationType p
      = ((destMapping.find? (fun kv => pyContains (pyLower p) kv.1)).map
          Prod.snd).getD "data_lake" :=
  ⟨detectLoop_eq_findFirst "unknown" p sourceMapping,
    detectLoop_eq_findFirst "data_lake" p destMapping⟩

/-! ## `_parse_schedule` (autonomous_pipeline_creation.py lines 300-309) -/

/-- The `schedule_mapping` dict of `_parse_schedule`. -/
def scheduleMapping : List (String × String) :=
  [("hourly", "0 * * * *"), ("daily", "0 2 * * *"),
    ("daily-2am", "0 2 * * *"), ("weekly", "0 2 * * 0"),
    ("monthly", "0 2 1 * *")]

/-- Shallow embedding of `_parse_schedule`:
`schedule_mapping.get(schedule.lower(), schedule)`. -/
def parseSchedule (schedule : String) : String :=
  (dictGet (pyLower schedule) scheduleMapping).getD schedule

theorem dictGet_mem {key v : String} :
    ∀ {m : List (String × String)}, dictGet key m = some v →
      v ∈ m.map Prod.snd := by
  intro m
  induction m with
  | nil => intro h; exact absurd h (by simp [dictGet])
  | cons kv rest ih =>
    intro h
    simp only [dictGet] at h
    by_cases hk : (key == kv.1) = true
    · simp only [hk, if_true, Option.some.injEq] at h
      simp [← h]
    · simp only [hk, if_false] at h
      simp [ih h]

/-- C9: `_parse_schedule` is idempotent; the five known tokens map to
their fixed 5-field cron expressions, and every unrecognized token (one
whose lower-casing is not a key of the mapping) passes through
unchanged. -/
theorem schedule_normalization (s : String) :
    parseSchedule (parseSchedule s) = parseSchedule s
    ∧ parseSchedule "hourly" = "0 * * * *"
    ∧ parseSchedule "daily" = "0 2 * * *"
    ∧ parseSchedule "daily-2am" = "0 2 * * *"
    ∧ parseSchedule "weekly" = "0 2 * * 0"
    ∧ parseSchedule "monthly" = "0 2 1 * *"
    ∧ (dictGet (pyLower s) scheduleMapping = none → parseSchedule s = s) := by
  refine ⟨?_, by decide, by decide, by decide, by decide, by decide, ?_⟩
  · cases h : dictGet (pyLower s) scheduleMapping with
    | none =>
      have hs : parseSchedule s = s := by simp [parseSchedule, h]
      rw [hs]
      exact hs
    | some v =>
      have hs : parseSchedule s = v := by simp [parseSchedule, h]
      rw [hs]
      have hv := dictGet_mem h
      simp only [scheduleMapping, List.map_cons, List.map_nil,
        List.mem_cons, List.not_mem_nil, or_false] at hv
      rcases hv with h1 | h1 | h1 | h1 | h1 <;> subst h1 <;> decide
  · intro h
    simp [parseSchedule, h]

/-- C9 witness: the already-valid cron expression `*/15 * * * *` is not a
known token, passes through unchanged, and re-parsing is stable. -/
theorem schedule_normalization_witness :
    parseSchedule (parseSchedule "*/15 * * * *")
      = parseSchedule "*/15 * * * *"
    ∧ parseSchedule "*/15 * * * *" = "*/15 * * * *" :=
  ⟨(schedule_normalization "*/15 * * * *").1,
    (schedule_normalization "*/15 * * * *").2.2.2.2.2.2 (by decide)⟩

end ADP
